import Mathlib

/-!
Shallow embedding of `bzt/resources/selenium_extras.py` (Taurus Selenium
helper utilities): locator resolution with fallback, timeout defaulting,
JavaScript dialog interception state, frame switching and window switching.

Conventions of the embedding:
* The ambient per-thread store (`get_from_thread_store`) is modelled by
  passing the stored values (driver handle, timeout) as explicit arguments.
* The Selenium driver is modelled by small structures carrying exactly the
  state the helpers touch (implicit-wait setting, window-handle list, page
  JavaScript globals); driver calls that can raise are modelled with
  `Except`.
* Python exceptions become explicit error values; an uncaught Python
  `TypeError` / `IndexError` / `ValueError` is its own constructor, so the
  theorems can distinguish it from the Selenium exceptions the code
  deliberately raises.
-/

/-- Python `str.lower()` (character-wise, as in the ASCII tags and tokens
this module compares). -/
def pyLower (s : String) : String :=
  String.mk (s.data.map Char.toLower)

/-- Python `str.startswith(p)`. -/
def pyStartsWith (s p : String) : Bool :=
  List.isPrefixOf p.data s.data

/-- Python `str.isdigit()`: non-empty and all digit characters. -/
def pyIsDigit (s : String) : Bool :=
  !s.data.isEmpty && s.data.all Char.isDigit

/-- Character-level worker for Python `str.split(sep)` with a one-character
separator. -/
def pySplitAux (sep : Char) : List Char → List Char → List String
  | [], acc => [String.mk acc.reverse]
  | c :: rest, acc =>
    if c = sep then String.mk acc.reverse :: pySplitAux sep rest []
    else pySplitAux sep rest (c :: acc)

/-- Python `str.split(sep)` for a one-character separator (the module only
splits on `"="`). -/
def pySplit (s : String) (sep : Char) : List String :=
  pySplitAux sep s.data []

/-- Digit-run accumulator for `pyInt`. -/
def pyIntDigits : List Char → Nat → Option Nat
  | [], acc => some acc
  | c :: rest, acc =>
    if c.isDigit then pyIntDigits rest (acc * 10 + (c.toNat - '0'.toNat))
    else none

/-- Python `int(s)` on optionally-signed decimal strings; `none` is the
`ValueError` raised on anything else.  (Python additionally tolerates
surrounding whitespace and underscore grouping; the strings this module
parses are plain digit runs, for which the two agree.) -/
def pyInt (s : String) : Option Int :=
  match s.data with
  | [] => none
  | '-' :: rest =>
    if rest.isEmpty then none
    else (pyIntDigits rest 0).map (fun n => -(n : Int))
  | '+' :: rest =>
    if rest.isEmpty then none
    else (pyIntDigits rest 0).map (fun n => (n : Int))
  | l => (pyIntDigits l 0).map (fun n => (n : Int))

/-- The `By` selector kinds used by the `BYS` table (`By.XPATH`, etc.).
`str` is the wire string Selenium uses for each, which is what `"%s"`
formatting of a `By` value produces in the error message. -/
inductive SelBy
  | xpath
  | cssSelector
  | name
  | id
  | linkText
deriving DecidableEq, Repr

def SelBy.str : SelBy → String
  | .xpath => "xpath"
  | .cssSelector => "css selector"
  | .name => "name"
  | .id => "id"
  | .linkText => "link text"

/-- The module-level `BYS` dictionary: strategy tag (already lowercased at
the call sites via `.lower()`) to Selenium `By` kind.  A missing key is a
Python `KeyError`, hence `Option`. -/
def BYS : String → Option SelBy
  | "xpath" => some .xpath
  | "css" => some .cssSelector
  | "name" => some .name
  | "id" => some .id
  | "linktext" => some .linkText
  | _ => none

/-- One entry of the `locators` list: a one-entry dict `{strategy: value}`;
`strategy` is the single key, `value` its value. -/
structure Locator where
  strategy : String
  value : String
deriving DecidableEq, Repr

/-- The slice of driver state `get_locator` touches: the current implicit
wait, a log of every `driver.implicitly_wait(t)` call made (in order), and
the element-count oracle behind `driver.find_elements(by, value)`.
`findCount` is part of the browser session and is unaffected by the
implicit-wait setting (the wait only controls how long the driver polls,
never which elements exist). -/
structure Driver where
  implicitWait : Nat
  waitLog : List Nat
  findCount : SelBy → String → Nat

/-- `driver.implicitly_wait(t)`: set the wait and record the call. -/
def implicitlyWait (d : Driver) (t : Nat) : Driver :=
  { d with implicitWait := t, waitLog := d.waitLog ++ [t] }

/-- Whether `driver.find_elements` reports at least one element for a
locator entry (after the `BYS[locator_type.lower()]` translation).  A
locator whose strategy is not a `BYS` key is never a hit (the code would
raise `KeyError` on it instead). -/
def locHit (d : Driver) (l : Locator) : Bool :=
  match BYS (pyLower l.strategy) with
  | some b => decide (0 < d.findCount b l.value)
  | none => false

/-- Errors `get_locator` can produce: the deliberate
`NoSuchElementException(msg)`, the `TypeError` from formatting
`"(%s, %s)" % None` when the locator list was empty, and the `KeyError`
from `BYS[...]` on an unknown strategy tag. -/
inductive LocErr
  | noSuchElement (msg : String)
  | typeError
  | keyError
deriving DecidableEq, Repr

/-- The `"Element not found: (%s, %s)" % first_locator` message for a
recorded first locator `(by, value)`. -/
def elementNotFoundMsg (b : SelBy) (v : String) : String :=
  "Element not found: (" ++ b.str ++ ", " ++ v ++ ")"

/-- The `for locator in locators: ... else: ...` loop of `get_locator`,
with `first` holding the Python `first_locator` variable (`None` before the
first iteration).  Mirrors the source line by line:
* exhausted list (`else:` clause): `driver.implicitly_wait(timeout)`, then
  format `"Element not found: (%s, %s)" % first_locator` — formatting with
  `first_locator = None` is a `TypeError`, otherwise
  `NoSuchElementException` is raised;
* first iteration: `first_locator = (BYS[...], value)` (a `KeyError` if the
  tag is unknown), then `find_elements`;
* later iterations: `driver.implicitly_wait(0)` first, then the `BYS`
  lookup inside `find_elements`;
* on a hit: `break`, restore `driver.implicitly_wait(timeout)`, return the
  `(by, value)` pair. -/
def getLocatorLoop (timeout : Nat) :
    Driver → Option (SelBy × String) → List Locator →
    Driver × Except LocErr (SelBy × String)
  | d, first, [] =>
    let d := implicitlyWait d timeout
    match first with
    | some (b, v) => (d, .error (.noSuchElement (elementNotFoundMsg b v)))
    | none => (d, .error .typeError)
  | d, none, loc :: rest =>
    match BYS (pyLower loc.strategy) with
    | none => (d, .error .keyError)
    | some b =>
      if 0 < d.findCount b loc.value then
        (implicitlyWait d timeout, .ok (b, loc.value))
      else
        getLocatorLoop timeout d (some (b, loc.value)) rest
  | d, some f, loc :: rest =>
    let d := implicitlyWait d 0
    match BYS (pyLower loc.strategy) with
    | none => (d, .error .keyError)
    | some b =>
      if 0 < d.findCount b loc.value then
        (implicitlyWait d timeout, .ok (b, loc.value))
      else
        getLocatorLoop timeout d (some f) rest

/-- `get_locator(locators, ignore_implicit_wait=False)`.  `driver` and
`timeout` come from the thread store (`_get_driver()` / `_get_timeout()`),
passed here explicitly.  Returns the final driver state together with the
returned locator pair or the raised error. -/
def get_locator (d : Driver) (timeout : Nat) (locators : List Locator)
    (ignore_implicit_wait : Bool := false) :
    Driver × Except LocErr (SelBy × String) :=
  let d := if ignore_implicit_wait then implicitlyWait d 0 else d
  getLocatorLoop timeout d none locators

/-- A value the thread store may hold under `"timeout"`: absent (`None`),
an empty list (the other falsy value the source comment names:
`timeout in (None, [])`), or a number. -/
inductive StoredTimeout
  | absent
  | emptyList
  | num (n : Nat)
deriving DecidableEq, Repr

/-- Python truthiness of a stored timeout value: `None` and `[]` are falsy,
a number is falsy exactly when it is `0`. -/
def StoredTimeout.truthy : StoredTimeout → Bool
  | .absent => false
  | .emptyList => false
  | .num n => decide (n ≠ 0)

/-- Python `timeout == 0` on a stored value: `None == 0` and `[] == 0` are
both `False`; a number compares numerically. -/
def StoredTimeout.eqZero : StoredTimeout → Bool
  | .absent => false
  | .emptyList => false
  | .num n => decide (n = 0)

/-- `_get_timeout()`: fetch `"timeout"` from the thread store and default
it to 30 when `not (timeout or timeout == 0)`. -/
def get_timeout (s : StoredTimeout) : StoredTimeout :=
  if !(s.truthy || s.eqZero) then .num 30 else s

/-- The numeric value of a stored timeout, used where the result of
`_get_timeout()` is passed to `driver.implicitly_wait`. -/
def StoredTimeout.asNat : StoredTimeout → Nat
  | .num n => n
  | _ => 0

/-- A JavaScript value as stored in the page globals the dialog scripts
use: `undefined` (a global never assigned), `null`, a boolean, a string. -/
inductive JsVal
  | undef
  | null
  | bool (b : Bool)
  | str (s : String)
deriving DecidableEq, Repr

/-- The page-global state the `dialogs_*` scripts read and write, plus a
record (`realAlertCalls`) of the invocations the overridden `window.alert`
forwards to the saved original (real) alert dialog.  `Option (List String)`
models an array global that may still be `undefined`; `origAlertSaved` /
`prevConfirmSaved` record whether `__webdriverOriginalAlert` /
`__webdriverPrevConfirm` hold the saved native functions. -/
structure Page where
  alerts : Option (List String)
  origAlertSaved : Bool
  nextAlert : JsVal
  confirms : Option (List String)
  nextConfirm : JsVal
  prevConfirmSaved : Bool
  prompts : Option (List String)
  nextPrompts : JsVal
  nextPrompt : JsVal
  realAlertCalls : List String
deriving DecidableEq, Repr

/-- A fresh page: every `__webdriver*` global is still `undefined`, no
original dialog function saved, no real alert shown yet. -/
def pageInit : Page where
  alerts := none
  origAlertSaved := false
  nextAlert := .undef
  confirms := none
  nextConfirm := .undef
  prevConfirmSaved := false
  prompts := none
  nextPrompts := .undef
  nextPrompt := .undef
  realAlertCalls := []

/-- `dialogs_replace()`: the injected script.  Its first line is the
sentinel `if (window.__webdriverAlerts) { return; }` — any array, even an
empty one, is truthy in JavaScript, so once installed the script returns
immediately and touches nothing.  Otherwise it initialises the three
capture queues to `[]`, saves the original `alert` and `confirm`, sets the
pending alert/confirm answers to `null`, and sets `__webdriverNextPrompts`
(sic — the variable the `prompt` override actually reads is
`__webdriverNextPrompt`, which stays `undefined`) to `true`. -/
def dialogs_replace (p : Page) : Page :=
  if p.alerts.isSome then p
  else
    { p with
      alerts := some []
      origAlertSaved := true
      nextAlert := .null
      confirms := some []
      nextConfirm := .null
      prevConfirmSaved := true
      prompts := some []
      nextPrompts := .bool true }

/-- The overridden `window.alert` installed by `dialogs_replace`:
`if (window.__webdriverNextAlert === null) { window.__webdriverOriginalAlert(msg); }`
then `window.__webdriverNextAlert = null;` then
`window.__webdriverAlerts.push(msg);`.  (This function only exists once the
overrides are installed, so `alerts` is an array here; `getD []` covers the
unreachable `undefined` case.) -/
def page_alert (p : Page) (msg : String) : Page :=
  let p1 :=
    if p.nextAlert = JsVal.null then
      { p with realAlertCalls := p.realAlertCalls ++ [msg] }
    else p
  { p1 with
    nextAlert := JsVal.null
    alerts := some ((p1.alerts.getD []) ++ [msg]) }

/-- `dialogs_answer_on_next_alert(value)`: only a case-insensitive `"#ok"`
does anything, namely `window.__webdriverNextAlert = true`. -/
def dialogs_answer_on_next_alert (p : Page) (value : String) : Page :=
  if pyLower value = "#ok" then { p with nextAlert := .bool true } else p

/-- `dialogs_answer_on_next_confirm(value)`: a case-insensitive `"#ok"`
picks `true`, anything else picks `false`, and the script
`window.__webdriverNextConfirm = <confirm>;` always runs. -/
def dialogs_answer_on_next_confirm (p : Page) (value : String) : Page :=
  let confirm : Bool := if pyLower value = "#ok" then true else false
  { p with nextConfirm := .bool confirm }

/-- Python `"%s" % x` for an optional string argument (`None` prints as
`"None"`). -/
def pyStrOpt : Option String → String
  | none => "None"
  | some s => s

/-- The frame-switching driver calls `FrameManager.switch` can make. -/
inductive FrameCmd
  | defaultContent
  | frameIndex (n : Int)
  | parentFrame
  | frameName (s : String)
deriving DecidableEq, Repr

/-- The slice of the driver `FrameManager.switch` uses: each switching call
either succeeds or raises `NoSuchFrameException` with some driver message. -/
structure FrameDriver where
  run : FrameCmd → Except String Unit

/-- Errors out of `FrameManager.switch`: the re-raised
`NoSuchFrameException` and the uncaught `ValueError` from
`int(frame_name.split("=")[1])` on a non-numeric index. -/
inductive FrameErr
  | noSuchFrame (msg : String)
  | valueError
deriving DecidableEq, Repr

/-- The source's `try`/`except NoSuchFrameException` around a driver call:
success passes through, a driver-level no-such-frame failure is replaced by
`NoSuchFrameException("Invalid Frame ID: %s" % frame_name)`. -/
def frameHandle (frame_name : Option String) :
    Except String Unit → Except FrameErr Unit
  | .ok u => .ok u
  | .error _ => .error (.noSuchFrame ("Invalid Frame ID: " ++ pyStrOpt frame_name))

/-- `FrameManager.switch(frame_name=None)`.  `not frame_name` is true
exactly for `None` and `""`, and both then behave identically, so the
dispatch works on `fn := frame_name.getD ""`; the re-raise message uses the
original argument (`"None"` for `None`).  `int(...)` is modelled by
`pyInt`; its failure is the uncaught `ValueError`. -/
def FrameManager.switch (d : FrameDriver) (frame_name : Option String) :
    Except FrameErr Unit :=
  let fn := frame_name.getD ""
  let step : Except FrameErr Unit :=
    if fn = "" ∨ fn = "relative=top" then
      (d.run .defaultContent).mapError FrameErr.noSuchFrame
    else if pyStartsWith fn "index=" then
      match pyInt ((pySplit fn '=').getD 1 "") with
      | some n => (d.run (.frameIndex n)).mapError FrameErr.noSuchFrame
      | none => .error .valueError
    else if fn = "relative=parent" then
      (d.run .parentFrame).mapError FrameErr.noSuchFrame
    else
      (d.run (.frameName fn)).mapError FrameErr.noSuchFrame
  match step with
  | .error (.noSuchFrame _) =>
    .error (.noSuchFrame ("Invalid Frame ID: " ++ pyStrOpt frame_name))
  | r => r

/-- The slice of the driver `WindowManager` uses: the ordered window-handle
list (`driver.window_handles`) and the currently focused window. -/
structure WinDriver where
  window_handles : List String
  focus : Option String
deriving DecidableEq, Repr

/-- `driver.switch_to.window(handle)`: focuses the handle if the session
knows it, raises `NoSuchWindowException` (with a driver message) if not. -/
def switch_to_window (d : WinDriver) (h : String) : Except String WinDriver :=
  if h ∈ d.window_handles then .ok { d with focus := some h }
  else .error ("no such window: " ++ h)

/-- Errors out of `WindowManager` methods: `NoSuchWindowException` and the
uncaught Python `IndexError` from list indexing. -/
inductive WinErr
  | noSuchWindow (msg : String)
  | indexError
deriving DecidableEq, Repr

/-- `WindowManager`: its only state is `self.windows`, the alias-to-handle
dict, modelled as an insertion-ordered association list. -/
structure WindowManager where
  windows : List (String × String)
deriving DecidableEq, Repr

/-- Python dict lookup on the association list (keys are unique; first
match). -/
def lookupAssoc : List (String × String) → String → Option String
  | [], _ => none
  | (k, v) :: rest, key => if k = key then some v else lookupAssoc rest key

/-- Python `int(s)` for a string `isdigit()` already accepted (an all-digit
string, on which `pyInt` always yields a non-negative value). -/
def pyIntNat (s : String) : Nat :=
  ((pyInt s).getD 0).toNat

/-- `WindowManager._switch_by_idx(win_index)`.  The source tests
`if len(wnd_handlers) <= win_index and win_index >= 0:` — `win_index ≥ 0`
always holds for a parsed digit string, so the guard is just
`len ≤ win_index`; in that branch `wnd_handlers[win_index]` is evaluated,
which for `win_index ≥ len` is always an `IndexError` (the `some` arm of
the `get?` match is kept only to mirror the source line).  The other branch
raises `NoSuchWindowException("Invalid Window ID: %s" % str(win_index))`. -/
def WindowManager.switch_by_idx (d : WinDriver) (win_index : Nat) :
    Except WinErr WinDriver :=
  let wnd_handlers := d.window_handles
  if wnd_handlers.length ≤ win_index then
    match wnd_handlers.get? win_index with
    | some h => (switch_to_window d h).mapError WinErr.noSuchWindow
    | none => .error .indexError
  else
    .error (.noSuchWindow ("Invalid Window ID: " ++ toString win_index))

/-- `WindowManager._switch_by_win_ser(window_name)`.  `"win_ser_local"`
goes to `window_handles[0]` when any window exists, else raises
`NoSuchWindowException`.  Any other name: on first sight the current last
handle (`window_handles[-1]`, an `IndexError` when the list is empty) is
stored under the alias, then the stored handle is focused; the stored
binding is never removed or overwritten. -/
def WindowManager.switch_by_win_ser (self : WindowManager) (d : WinDriver)
    (window_name : String) : Except WinErr (WindowManager × WinDriver) :=
  if window_name = "win_ser_local" then
    match d.window_handles.head? with
    | some h =>
      ((switch_to_window d h).mapError WinErr.noSuchWindow).map
        (fun d2 => (self, d2))
    | none => .error (.noSuchWindow ("Invalid Window ID: " ++ window_name))
  else
    match lookupAssoc self.windows window_name with
    | some h =>
      ((switch_to_window d h).mapError WinErr.noSuchWindow).map
        (fun d2 => (self, d2))
    | none =>
      match d.window_handles.getLast? with
      | none => .error .indexError
      | some h =>
        ((switch_to_window d h).mapError WinErr.noSuchWindow).map
          (fun d2 => (WindowManager.mk (self.windows ++ [(window_name, h)]), d2))

/-- `WindowManager.switch(window_name=None)`.  Dispatch: falsy argument
(`None`/`""`) → last window handle (`window_handles[-1]`, `IndexError` when
empty); all-digit string → `_switch_by_idx(int(...))`; `"win_ser_"` prefix
→ `_switch_by_win_ser`; anything else → the driver by name.  The `try`
around the whole body catches only `NoSuchWindowException` and re-raises it
as `NoSuchWindowException("Invalid Window ID: %s" % window_name)`. -/
def WindowManager.switch (self : WindowManager) (d : WinDriver)
    (window_name : Option String) : Except WinErr (WindowManager × WinDriver) :=
  let wn := window_name.getD ""
  let step : Except WinErr (WindowManager × WinDriver) :=
    if wn = "" then
      match d.window_handles.getLast? with
      | none => .error .indexError
      | some h =>
        ((switch_to_window d h).mapError WinErr.noSuchWindow).map
          (fun d2 => (self, d2))
    else if pyIsDigit wn then
      (WindowManager.switch_by_idx d (pyIntNat wn)).map (fun d2 => (self, d2))
    else if pyStartsWith wn "win_ser_" then
      self.switch_by_win_ser d wn
    else
      ((switch_to_window d wn).mapError WinErr.noSuchWindow).map
        (fun d2 => (self, d2))
  match step with
  | .error (.noSuchWindow _) =>
    .error (.noSuchWindow ("Invalid Window ID: " ++ pyStrOpt window_name))
  | r => r

deriving instance DecidableEq for Except

/-- A concrete driver for instantiating the locator theorems: only the
locator `(By.ID, "target")` matches anything. -/
def exDriver : Driver where
  implicitWait := 7
  waitLog := []
  findCount := fun b v => if b = SelBy.id ∧ v = "target" then 1 else 0

/-- A concrete frame driver for instantiating the frame theorems: every
switch succeeds except the frame named `"ghost"`. -/
def exFrameDriver : FrameDriver where
  run := fun c =>
    match c with
    | .frameName "ghost" => .error "no such frame: ghost"
    | _ => .ok ()

theorem locHit_implicitlyWait (d : Driver) (t : Nat) (l : Locator) :
    locHit (implicitlyWait d t) l = locHit d l := rfl

theorem mem_of_getLastEq {α : Type} {l : List α} {a : α}
    (h : l.getLast? = some a) : a ∈ l := by
  obtain ⟨hne, rfl⟩ := List.mem_getLast?_eq_getLast (x := a) h
  exact List.getLast_mem hne

theorem lookupAssoc_append_right (ws : List (String × String)) (a h : String)
    (hnone : lookupAssoc ws a = none) :
    lookupAssoc (ws ++ [(a, h)]) a = some h := by
  induction ws with
  | nil => simp [lookupAssoc]
  | cons p rest ih =>
    obtain ⟨k, v⟩ := p
    by_cases hk : k = a
    · simp [lookupAssoc, hk] at hnone
    · simp only [lookupAssoc, List.cons_append, if_neg hk] at hnone ⊢
      exact ih hnone

theorem getLocatorLoop_miss_then_hit (timeout : Nat) (pre : List Locator) :
    ∀ (d : Driver) (f : SelBy × String) (loc : Locator) (post : List Locator)
      (b : SelBy),
      (∀ l ∈ pre, (BYS (pyLower l.strategy)).isSome = true ∧ locHit d l = false) →
      BYS (pyLower loc.strategy) = some b →
      locHit d loc = true →
      getLocatorLoop timeout d (some f) (pre ++ loc :: post)
        = ({ implicitWait := timeout,
             waitLog := d.waitLog ++ List.replicate (pre.length + 1) 0 ++ [timeout],
             findCount := d.findCount },
           Except.ok (b, loc.value)) := by
  induction pre with
  | nil =>
    intro d f loc post b _ hb hhit
    unfold locHit at hhit
    rw [hb] at hhit
    have hcount : 0 < d.findCount b loc.value := of_decide_eq_true hhit
    simp [getLocatorLoop, hb, implicitlyWait, hcount]
  | cons p rest ih =>
    intro d f loc post b hpre hb hhit
    obtain ⟨hp1, hp2⟩ := hpre p (List.mem_cons_self p rest)
    obtain ⟨bp, hbp⟩ := Option.isSome_iff_exists.mp hp1
    unfold locHit at hp2
    rw [hbp] at hp2
    have hmiss : ¬ (0 < d.findCount bp p.value) := of_decide_eq_false hp2
    have hrest : ∀ l ∈ rest,
        (BYS (pyLower l.strategy)).isSome = true
          ∧ locHit (implicitlyWait d 0) l = false := by
      intro l hl
      exact hpre l (List.mem_cons_of_mem p hl)
    have hmiss2 : ¬ (0 < (implicitlyWait d 0).findCount bp p.value) := hmiss
    have := ih (implicitlyWait d 0) f loc post b hrest hb hhit
    simp only [List.cons_append, getLocatorLoop, hbp, List.append_eq,
      if_neg hmiss2]
    rw [this]
    simp [implicitlyWait, List.replicate_succ, List.append_assoc]

theorem getLocatorLoop_all_miss (timeout : Nat) (pre : List Locator) :
    ∀ (d : Driver) (fb : SelBy) (fv : String),
      (∀ l ∈ pre, (BYS (pyLower l.strategy)).isSome = true ∧ locHit d l = false) →
      getLocatorLoop timeout d (some (fb, fv)) pre
        = ({ implicitWait := timeout,
             waitLog := d.waitLog ++ List.replicate pre.length 0 ++ [timeout],
             findCount := d.findCount },
           Except.error (.noSuchElement (elementNotFoundMsg fb fv))) := by
  induction pre with
  | nil =>
    intro d fb fv _
    simp [getLocatorLoop, implicitlyWait]
  | cons p rest ih =>
    intro d fb fv hpre
    obtain ⟨hp1, hp2⟩ := hpre p (List.mem_cons_self p rest)
    obtain ⟨bp, hbp⟩ := Option.isSome_iff_exists.mp hp1
    unfold locHit at hp2
    rw [hbp] at hp2
    have hmiss : ¬ (0 < d.findCount bp p.value) := of_decide_eq_false hp2
    have hrest : ∀ l ∈ rest,
        (BYS (pyLower l.strategy)).isSome = true
          ∧ locHit (implicitlyWait d 0) l = false := by
      intro l hl
      exact hpre l (List.mem_cons_of_mem p hl)
    have hmiss2 : ¬ (0 < (implicitlyWait d 0).findCount bp p.value) := hmiss
    have := ih (implicitlyWait d 0) fb fv hrest
    simp only [getLocatorLoop, hbp, if_neg hmiss2]
    rw [this]
    simp [implicitlyWait, List.replicate_succ, List.append_assoc]

theorem exDriver_misses_css_a :
    ∀ l ∈ [Locator.mk "css" "a"],
      (BYS (pyLower l.strategy)).isSome = true ∧ locHit exDriver l = false := by
  intro l hl
  rw [List.mem_singleton] at hl
  subst hl
  exact ⟨by decide, by decide⟩

theorem exDriver_misses_both :
    ∀ l ∈ [Locator.mk "css" "a", Locator.mk "id" "nope"],
      (BYS (pyLower l.strategy)).isSome = true ∧ locHit exDriver l = false := by
  intro l hl
  rw [List.mem_cons, List.mem_singleton] at hl
  rcases hl with h | h <;> subst h <;> exact ⟨by decide, by decide⟩

/-- C2: for a non-empty locator list in which some candidate matches,
`get_locator` returns the `(strategy, value)` pair of the earliest matching
candidate (candidates tried in list order, the implicit wait set to `0`
once per candidate after the first — the `List.replicate pre.length 0`
block of the wait log), and afterwards the implicit wait is restored to the
ambient timeout value (the final `timeout` entry of the log and the final
`implicitWait`). -/
theorem get_locator_returns_first_match (d : Driver) (timeout : Nat)
    (pre post : List Locator) (loc : Locator) (b : SelBy)
    (hpre : ∀ l ∈ pre,
      (BYS (pyLower l.strategy)).isSome = true ∧ locHit d l = false)
    (hb : BYS (pyLower loc.strategy) = some b)
    (hhit : locHit d loc = true) :
    get_locator d timeout (pre ++ loc :: post) false
      = ({ implicitWait := timeout,
           waitLog := d.waitLog ++ List.replicate pre.length 0 ++ [timeout],
           findCount := d.findCount },
         Except.ok (b, loc.value)) := by
  cases pre with
  | nil =>
    unfold locHit at hhit
    rw [hb] at hhit
    have hcount : 0 < d.findCount b loc.value := of_decide_eq_true hhit
    simp [get_locator, getLocatorLoop, hb, hcount, implicitlyWait]
  | cons p rest =>
    obtain ⟨hp1, hp2⟩ := hpre p (List.mem_cons_self p rest)
    obtain ⟨bp, hbp⟩ := Option.isSome_iff_exists.mp hp1
    unfold locHit at hp2
    rw [hbp] at hp2
    have hmiss : ¬ (0 < d.findCount bp p.value) := of_decide_eq_false hp2
    have hrest : ∀ l ∈ rest,
        (BYS (pyLower l.strategy)).isSome = true ∧ locHit d l = false :=
      fun l hl => hpre l (List.mem_cons_of_mem p hl)
    have hloop := getLocatorLoop_miss_then_hit timeout rest d (bp, p.value)
      loc post b hrest hb hhit
    simp only [get_locator, Bool.false_eq_true, if_false, List.cons_append,
      getLocatorLoop, hbp, List.append_eq, if_neg hmiss]
    rw [hloop]
    simp [List.replicate_succ]

/-- C2 witness: with a driver where only `(By.ID, "target")` matches, the
list `[{css: a}, {id: target}]` resolves to the second candidate, with one
zero-wait and a final restore to the timeout `30`. -/
theorem get_locator_returns_first_match_witness :
    ((∀ l ∈ [Locator.mk "css" "a"],
        (BYS (pyLower l.strategy)).isSome = true ∧ locHit exDriver l = false)
      ∧ BYS (pyLower "id") = some SelBy.id
      ∧ locHit exDriver (Locator.mk "id" "target") = true)
    ∧ get_locator exDriver 30
        ([Locator.mk "css" "a"] ++ Locator.mk "id" "target" :: []) false
      = ({ implicitWait := 30,
           waitLog := exDriver.waitLog ++ List.replicate 1 0 ++ [30],
           findCount := exDriver.findCount },
         Except.ok (SelBy.id, "target")) :=
  ⟨⟨exDriver_misses_css_a, by decide, by decide⟩,
   get_locator_returns_first_match exDriver 30 [Locator.mk "css" "a"] []
     (Locator.mk "id" "target") SelBy.id exDriver_misses_css_a
     (by decide) (by decide)⟩

/-- C3: for a non-empty locator list in which no candidate matches,
`get_locator` raises `NoSuchElementException` whose message names the first
candidate's (translated) strategy and value, and the implicit wait has been
restored to the ambient timeout before the error is raised (final
`implicitWait = timeout`, the restore being the last wait call logged). -/
theorem get_locator_no_match_raises (d : Driver) (timeout : Nat)
    (first : Locator) (rest : List Locator) (b : SelBy)
    (hall : ∀ l ∈ first :: rest,
      (BYS (pyLower l.strategy)).isSome = true ∧ locHit d l = false)
    (hb : BYS (pyLower first.strategy) = some b) :
    get_locator d timeout (first :: rest) false
      = ({ implicitWait := timeout,
           waitLog := d.waitLog ++ List.replicate rest.length 0 ++ [timeout],
           findCount := d.findCount },
         Except.error (.noSuchElement (elementNotFoundMsg b first.value))) := by
  obtain ⟨h1, h2⟩ := hall first (List.mem_cons_self first rest)
  unfold locHit at h2
  rw [hb] at h2
  have hmiss : ¬ (0 < d.findCount b first.value) := of_decide_eq_false h2
  have hrest : ∀ l ∈ rest,
      (BYS (pyLower l.strategy)).isSome = true ∧ locHit d l = false :=
    fun l hl => hall l (List.mem_cons_of_mem first hl)
  have hloop := getLocatorLoop_all_miss timeout rest d b first.value hrest
  simp only [get_locator, Bool.false_eq_true, if_false, getLocatorLoop, hb,
    List.append_eq, if_neg hmiss]
  rw [hloop]

/-- C3 witness: the list `[{css: a}, {id: nope}]` matches nothing against
the example driver; the call fails with the message naming the first
candidate `(css selector, a)` and the wait is restored to `30`. -/
theorem get_locator_no_match_raises_witness :
    ((∀ l ∈ [Locator.mk "css" "a", Locator.mk "id" "nope"],
        (BYS (pyLower l.strategy)).isSome = true ∧ locHit exDriver l = false)
      ∧ BYS (pyLower "css") = some SelBy.cssSelector)
    ∧ get_locator exDriver 30 (Locator.mk "css" "a" :: [Locator.mk "id" "nope"]) false
      = ({ implicitWait := 30,
           waitLog := exDriver.waitLog ++ List.replicate 1 0 ++ [30],
           findCount := exDriver.findCount },
         Except.error (.noSuchElement
           (elementNotFoundMsg SelBy.cssSelector "a"))) :=
  ⟨⟨exDriver_misses_both, by decide⟩,
   get_locator_no_match_raises exDriver 30 (Locator.mk "css" "a")
     [Locator.mk "id" "nope"] SelBy.cssSelector exDriver_misses_both
     (by decide)⟩

/-- C1 (code bug): `_switch_by_idx` inverts its bound check
(`len(wnd_handlers) <= win_index` where the intent is `win_index <
len(wnd_handlers)`).  With two windows, switching by the valid ordinal
`"1"` raises `NoSuchWindowException("Invalid Window ID: 1")` instead of
focusing the window, and the out-of-range ordinal `"2"` hits
`wnd_handlers[2]` and dies with an uncaught `IndexError` instead of the
invalid-window error the claim (and the function's own error message)
describe. -/
theorem switch_by_idx_inverted_bound :
    WindowManager.switch ⟨[]⟩ ⟨["w0", "w1"], none⟩ (some "1")
      = Except.error (WinErr.noSuchWindow "Invalid Window ID: 1")
    ∧ WindowManager.switch ⟨[]⟩ ⟨["w0", "w1"], none⟩ (some "2")
      = Except.error WinErr.indexError := by
  exact ⟨by decide, by decide⟩

/-- C4 counterexample: with the overrides installed and
`dialogs_answer_on_next_alert("#ok")` pending, the next `window.alert` does
NOT proceed to the real (original) alert dialog — no call is forwarded to
it (`realAlertCalls` stays empty) — even though the message is captured.
This refutes the claim that the next alert "proceeds to the real alert
dialog". -/
theorem alert_answer_ok_not_forwarded :
    (page_alert (dialogs_answer_on_next_alert (dialogs_replace pageInit) "#ok")
        "hello").realAlertCalls = []
    ∧ (page_alert (dialogs_answer_on_next_alert (dialogs_replace pageInit) "#ok")
        "hello").alerts = some ["hello"] := by
  exact ⟨by decide, by decide⟩

/-- C4 (amended): after `dialogs_answer_on_next_alert("#ok")` with the
overrides installed, the next `window.alert` is suppressed — it is NOT
forwarded to the real (original) alert dialog — while the message is still
appended to the capture queue; the pending acknowledgment is consumed
(reset to `null`), so a subsequent alert reverts to default behaviour:
it is forwarded to the real dialog and captured. -/
theorem alert_answer_ok_suppresses (p : Page) (q : List String)
    (msg msg2 : String) (hq : p.alerts = some q) :
    (page_alert (dialogs_answer_on_next_alert p "#ok") msg).realAlertCalls
        = p.realAlertCalls
    ∧ (page_alert (dialogs_answer_on_next_alert p "#ok") msg).alerts
        = some (q ++ [msg])
    ∧ (page_alert (dialogs_answer_on_next_alert p "#ok") msg).nextAlert
        = JsVal.null
    ∧ (page_alert (page_alert (dialogs_answer_on_next_alert p "#ok") msg)
        msg2).realAlertCalls = p.realAlertCalls ++ [msg2]
    ∧ (page_alert (page_alert (dialogs_answer_on_next_alert p "#ok") msg)
        msg2).alerts = some ((q ++ [msg]) ++ [msg2]) := by
  have hok : pyLower "#ok" = "#ok" := by decide
  simp [dialogs_answer_on_next_alert, page_alert, hok, hq]

/-- C4 witness: the amended behaviour on a freshly installed page with
messages `"m1"`, `"m2"`. -/
theorem alert_answer_ok_suppresses_witness :
    (dialogs_replace pageInit).alerts = some []
    ∧ ((page_alert (dialogs_answer_on_next_alert (dialogs_replace pageInit)
          "#ok") "m1").realAlertCalls = (dialogs_replace pageInit).realAlertCalls
      ∧ (page_alert (dialogs_answer_on_next_alert (dialogs_replace pageInit)
          "#ok") "m1").alerts = some ([] ++ ["m1"])
      ∧ (page_alert (dialogs_answer_on_next_alert (dialogs_replace pageInit)
          "#ok") "m1").nextAlert = JsVal.null
      ∧ (page_alert (page_alert (dialogs_answer_on_next_alert
          (dialogs_replace pageInit) "#ok") "m1") "m2").realAlertCalls
          = (dialogs_replace pageInit).realAlertCalls ++ ["m2"]
      ∧ (page_alert (page_alert (dialogs_answer_on_next_alert
          (dialogs_replace pageInit) "#ok") "m1") "m2").alerts
          = some (([] ++ ["m1"]) ++ ["m2"])) :=
  ⟨by decide,
   alert_answer_ok_suppresses (dialogs_replace pageInit) [] "m1" "m2" (by decide)⟩

/-- C5: a `"win_ser_"` alias (other than `"win_ser_local"`) not yet bound:
the first `WindowManager.switch` binds it to the then-last window handle
and focuses that window; a second switch with the same alias focuses the
same remembered handle on any later driver state that still has it (in
particular one where a newer handle has become the last), and the alias
registry is left exactly as the first call created it — the binding is
neither removed nor overwritten. -/
theorem win_ser_alias_remembered (wm : WindowManager) (d d2 : WinDriver)
    (a h : String)
    (hne : a ≠ "")
    (hdig : pyIsDigit a = false)
    (hpref : pyStartsWith a "win_ser_" = true)
    (hloc : a ≠ "win_ser_local")
    (hnew : lookupAssoc wm.windows a = none)
    (hlast : d.window_handles.getLast? = some h)
    (hmem2 : h ∈ d2.window_handles) :
    WindowManager.switch wm d (some a)
      = Except.ok (⟨wm.windows ++ [(a, h)]⟩, { d with focus := some h })
    ∧ WindowManager.switch ⟨wm.windows ++ [(a, h)]⟩ d2 (some a)
      = Except.ok (⟨wm.windows ++ [(a, h)]⟩, { d2 with focus := some h }) := by
  have hmem : h ∈ d.window_handles := mem_of_getLastEq hlast
  have hlook := lookupAssoc_append_right wm.windows a h hnew
  constructor
  · simp [WindowManager.switch, WindowManager.switch_by_win_ser,
      switch_to_window, Except.map, Except.mapError,
      hne, hdig, hpref, hloc, hnew, hlast, hmem]
  · simp [WindowManager.switch, WindowManager.switch_by_win_ser,
      switch_to_window, Except.map, Except.mapError,
      hne, hdig, hpref, hloc, hlook, hmem2]

/-- C5 witness: alias `"win_ser_abc"`, first bound to `"w1"` (the last of
two handles); after a third window `"w2"` opens, the repeated switch still
focuses `"w1"`. -/
theorem win_ser_alias_remembered_witness :
    (("win_ser_abc" : String) ≠ ""
      ∧ pyIsDigit "win_ser_abc" = false
      ∧ pyStartsWith "win_ser_abc" "win_ser_" = true
      ∧ ("win_ser_abc" : String) ≠ "win_ser_local"
      ∧ lookupAssoc (WindowManager.mk []).windows "win_ser_abc" = none
      ∧ (WinDriver.mk ["w0", "w1"] none).window_handles.getLast? = some "w1"
      ∧ "w1" ∈ (WinDriver.mk ["w0", "w1", "w2"] (some "w2")).window_handles)
    ∧ (WindowManager.switch ⟨[]⟩ ⟨["w0", "w1"], none⟩ (some "win_ser_abc")
        = Except.ok (⟨[] ++ [("win_ser_abc", "w1")]⟩,
            { WinDriver.mk ["w0", "w1"] none with focus := some "w1" })
      ∧ WindowManager.switch ⟨[] ++ [("win_ser_abc", "w1")]⟩
          ⟨["w0", "w1", "w2"], some "w2"⟩ (some "win_ser_abc")
        = Except.ok (⟨[] ++ [("win_ser_abc", "w1")]⟩,
            { WinDriver.mk ["w0", "w1", "w2"] (some "w2") with
                focus := some "w1" })) :=
  ⟨by decide,
   win_ser_alias_remembered ⟨[]⟩ ⟨["w0", "w1"], none⟩
     ⟨["w0", "w1", "w2"], some "w2"⟩ "win_ser_abc" "w1"
     (by decide) (by decide) (by decide) (by decide) (by decide) (by decide)
     (by decide)⟩

/-- C6: `dialogs_replace` is idempotent — composing it with itself is the
same as one installation, and on a page whose sentinel
(`window.__webdriverAlerts`) is already set a call leaves the whole page
state (queues, pending-answer slots, saved originals) unchanged. -/
theorem dialogs_replace_idempotent :
    (∀ p : Page, dialogs_replace (dialogs_replace p) = dialogs_replace p)
    ∧ ∀ p : Page, p.alerts.isSome = true → dialogs_replace p = p := by
  constructor
  · intro p
    by_cases hp : p.alerts.isSome = true
    · simp [dialogs_replace, hp]
    · simp [dialogs_replace, hp]
  · intro p hp
    simp [dialogs_replace, hp]

/-- C6 witness: a freshly installed page has the sentinel set and a second
`dialogs_replace` leaves it untouched. -/
theorem dialogs_replace_idempotent_witness :
    (dialogs_replace pageInit).alerts.isSome = true
    ∧ dialogs_replace (dialogs_replace pageInit) = dialogs_replace pageInit :=
  ⟨by decide,
   dialogs_replace_idempotent.2 (dialogs_replace pageInit) (by decide)⟩

/-- C7: `FrameManager.switch` dispatch — no argument or `"relative=top"`
switches to the top-level document; `"index=<n>"` switches to the nth child
frame by position; `"relative=parent"` switches to the parent frame; any
other string is passed to the driver as a frame name; and in every case a
driver-level no-such-frame failure is caught and re-raised with a message
naming the requested identifier (the `frameHandle` wrapper). -/
theorem frame_switch_dispatch :
    (∀ d : FrameDriver, FrameManager.switch d none
        = frameHandle none (d.run .defaultContent))
    ∧ (∀ d : FrameDriver, FrameManager.switch d (some "relative=top")
        = frameHandle (some "relative=top") (d.run .defaultContent))
    ∧ (∀ (d : FrameDriver) (fn : String) (n : Int),
        fn ≠ "" → fn ≠ "relative=top" → pyStartsWith fn "index=" = true →
        pyInt ((pySplit fn '=').getD 1 "") = some n →
        FrameManager.switch d (some fn)
          = frameHandle (some fn) (d.run (.frameIndex n)))
    ∧ (∀ d : FrameDriver, FrameManager.switch d (some "relative=parent")
        = frameHandle (some "relative=parent") (d.run .parentFrame))
    ∧ (∀ (d : FrameDriver) (fn : String),
        fn ≠ "" → fn ≠ "relative=top" → pyStartsWith fn "index=" = false →
        fn ≠ "relative=parent" →
        FrameManager.switch d (some fn)
          = frameHandle (some fn) (d.run (.frameName fn))) := by
  refine ⟨fun d => ?_, fun d => ?_, fun d fn n h1 h2 h3 h4 => ?_,
    fun d => ?_, fun d fn h1 h2 h3 h4 => ?_⟩
  · cases hr : d.run .defaultContent <;>
      simp [FrameManager.switch, frameHandle, Except.mapError, hr]
  · cases hr : d.run .defaultContent <;>
      simp [FrameManager.switch, frameHandle, Except.mapError, hr]
  · have h4b : pyInt ((pySplit fn '=')[1]?.getD "") = some n := by
      simpa using h4
    cases hr : d.run (.frameIndex n) <;>
      simp [FrameManager.switch, frameHandle, Except.mapError, hr,
        h1, h2, h3, h4b]
  · have hsw : pyStartsWith "relative=parent" "index=" = false := by decide
    cases hr : d.run .parentFrame <;>
      simp [FrameManager.switch, frameHandle, Except.mapError, hr, hsw]
  · cases hr : d.run (.frameName fn) <;>
      simp [FrameManager.switch, frameHandle, Except.mapError, hr,
        h1, h2, h3, h4]

/-- C7 witness: on the example frame driver, `"index=1"` goes to the second
child frame (success) and the unknown name `"ghost"` is re-raised as an
invalid-frame error naming `"ghost"`. -/
theorem frame_switch_dispatch_witness :
    (("index=1" : String) ≠ "" ∧ ("index=1" : String) ≠ "relative=top"
      ∧ pyStartsWith "index=1" "index=" = true
      ∧ pyInt ((pySplit "index=1" '=').getD 1 "") = some 1
      ∧ FrameManager.switch exFrameDriver (some "index=1")
          = frameHandle (some "index=1") (exFrameDriver.run (.frameIndex 1)))
    ∧ (("ghost" : String) ≠ "" ∧ ("ghost" : String) ≠ "relative=top"
      ∧ pyStartsWith "ghost" "index=" = false
      ∧ ("ghost" : String) ≠ "relative=parent"
      ∧ FrameManager.switch exFrameDriver (some "ghost")
          = frameHandle (some "ghost") (exFrameDriver.run (.frameName "ghost"))) :=
  ⟨⟨by decide, by decide, by decide, by decide,
    frame_switch_dispatch.2.2.1 exFrameDriver "index=1" 1
      (by decide) (by decide) (by decide) (by decide)⟩,
   ⟨by decide, by decide, by decide, by decide,
    frame_switch_dispatch.2.2.2.2 exFrameDriver "ghost"
      (by decide) (by decide) (by decide) (by decide)⟩⟩

/-- C8: `_get_timeout` yields 30 when the stored value is absent (`None`)
or an empty list, and yields the stored number itself otherwise — zero
included; consequently locator resolution run with the ambient value
behaves exactly as with the literal default/stored number. -/
theorem get_timeout_defaults :
    get_timeout .absent = .num 30
    ∧ get_timeout .emptyList = .num 30
    ∧ (∀ n : Nat, get_timeout (.num n) = .num n)
    ∧ (∀ (d : Driver) (locators : List Locator) (iw : Bool),
        get_locator d (get_timeout .absent).asNat locators iw
          = get_locator d 30 locators iw)
    ∧ ∀ (n : Nat) (d : Driver) (locators : List Locator) (iw : Bool),
        get_locator d (get_timeout (.num n)).asNat locators iw
          = get_locator d n locators iw := by
  refine ⟨rfl, rfl, fun n => ?_, fun d locators iw => rfl,
    fun n d locators iw => ?_⟩
  · cases n <;> rfl
  · cases n <;> rfl

/-- C9: on the empty locator list, `get_locator` does not raise the
documented element-not-found error: the loop's `else` clause runs with
`first_locator = None`, and `"Element not found: (%s, %s)" % None` itself
fails, so the result is the formatting `TypeError` — for any driver,
timeout and `ignore_implicit_wait` flag. -/
theorem get_locator_empty_list_type_error :
    ∀ (d : Driver) (timeout : Nat) (iw : Bool),
      (get_locator d timeout [] iw).2 = Except.error LocErr.typeError := by
  intro d timeout iw
  cases iw <;> simp [get_locator, getLocatorLoop]

/-- C10: `dialogs_answer_on_next_confirm` sets the pending confirm answer
to `true` exactly when the argument is `"#ok"` case-insensitively, and for
every other argument value sets it to `false` (any unrecognized string is
treated as a cancel). -/
theorem answer_on_next_confirm_ok_else_false :
    ∀ (p : Page) (value : String),
      (pyLower value = "#ok" →
        (dialogs_answer_on_next_confirm p value).nextConfirm = JsVal.bool true)
      ∧ (pyLower value ≠ "#ok" →
        (dialogs_answer_on_next_confirm p value).nextConfirm
          = JsVal.bool false) := by
  intro p value
  constructor
  · intro h
    simp [dialogs_answer_on_next_confirm, h]
  · intro h
    simp [dialogs_answer_on_next_confirm, h]

/-- C10 witness: `"#OK"` (case-insensitive hit) yields `true`; the
unrecognized string `"whatever"` yields `false`. -/
theorem answer_on_next_confirm_witness :
    (pyLower "#OK" = "#ok"
      ∧ (dialogs_answer_on_next_confirm pageInit "#OK").nextConfirm
          = JsVal.bool true)
    ∧ (pyLower "whatever" ≠ "#ok"
      ∧ (dialogs_answer_on_next_confirm pageInit "whatever").nextConfirm
          = JsVal.bool false) :=
  ⟨⟨by decide,
    (answer_on_next_confirm_ok_else_false pageInit "#OK").1 (by decide)⟩,
   ⟨by decide,
    (answer_on_next_confirm_ok_else_false pageInit "whatever").2 (by decide)⟩⟩
